import Mathlib

/-!
Shallow embedding of the expense-management REST API (src/main.py, src/models.py).

Conventions of the embedding:
* SQL rows live in Lean lists; a `select ... where ...` chain is a chain of
  `List.filter` calls in the order the code adds the clauses, `offset`/`limit`
  are `List.drop`/`List.take`.
* `datetime` values are modelled as `Int` (seconds); `float` amounts as `ℚ`.
* Python `Optional[T]` is `Option T`; a handler that can raise `HTTPException`
  returns `Except HTTPError α`; handlers that write return the new store.
* The JWT layer (the `jwt` package) is modelled by the inductive `JWToken`:
  a token is either unparseable (`malformed`) or carries the signing key it was
  signed with, a `sub` claim and an `exp` claim; `jwt.decode(tok, key, [HS256])`
  succeeds iff the key matches and the token is not expired (PyJWT rejects
  when `exp ≤ now`, with no leeway configured).
* The bcrypt adapter (passlib) is external to src; it is modelled as an
  injective tagging function, which is all the code relies on.
-/

namespace ExpenseMS

/-! ## Data model (src/models.py) -/

/-- Row of the `User` table: `id` primary key, `username` (unique index),
`disabled` flag (default false) and the bcrypt hash. -/
structure User where
  id : Nat
  username : String
  disabled : Bool
  hashed_password : String
deriving DecidableEq

/-- Row of the `Expense` table (class `Expense(ExpenseBase, table=True)`): the
`ExpenseBase` fields plus primary key `id` and the `owner_id` foreign key.
There is no `category` attribute on this model — only `category_id`. -/
structure Expense where
  id : Option Nat
  owner_id : Option Nat
  amount : ℚ
  description : String
  category_id : Option Nat
  date : Int
  last_updated : Int
  recurrence_rule : Option String
  recurrence_start_date : Option Int
deriving DecidableEq

/-- An HTTP error response as raised via `HTTPException(status_code, detail)`. -/
structure HTTPError where
  status : Nat
  detail : String
deriving DecidableEq

def notFoundExpense : HTTPError := ⟨404, "Expense not found"⟩

def credentialsError : HTTPError := ⟨401, "Could not validate credentials"⟩

def inactiveUserError : HTTPError := ⟨400, "Inactive user"⟩

def incorrectLoginError : HTTPError := ⟨401, "Incorrect username or password"⟩

def duplicateUsernameError : HTTPError := ⟨400, "Username already registered"⟩

/-- FastAPI/pydantic request-validation failure (422 Unprocessable Entity).
The structured `detail` of real 422 responses is collapsed to one value: no
claim depends on its contents. -/
def validationError : HTTPError := ⟨422, "Unprocessable Entity"⟩

/-- The `AttributeError` raised when `get_expenses` evaluates
`Expense.category` (src/main.py line 200): the `Expense` model defines
`category_id` but no attribute named `category`, so building the category
where-clause raises, which FastAPI surfaces as a 500 response. -/
def attributeErrorCategory : HTTPError :=
  ⟨500, "AttributeError: type object Expense has no attribute category"⟩

/-- The `AttributeError` raised inside the `recurrence_start_date` field
validator (src/models.py lines 63-66): under pydantic v2 the validator's
second parameter is a `ValidationInfo` object whatever the parameter is
named, `ValidationInfo` has no `get` method, and pydantic turns only
`ValueError`/`AssertionError` into 422s — so `values.get('recurrence_rule')`
escapes as an unhandled exception and FastAPI answers 500. -/
def attributeErrorValidator : HTTPError :=
  ⟨500, "AttributeError: ValidationInfo object has no attribute get"⟩

/-! ## Credential store adapter (external to src) -/

/-- Modelled from the spec: the Credential Store Adapter (passlib bcrypt) is
external — an "opaque verify(plain, hash)->bool and hash(plain)->hash
capability". Modelled as an injective tagging function. -/
def get_password_hash (password : String) : String :=
  "bcrypt$" ++ password

/-- Modelled from the spec: `verify(plain, hash)` of the external adapter —
true iff `hash` is the hash of `plain`. -/
def verify_password (plain_password hashed_password : String) : Bool :=
  hashed_password = get_password_hash plain_password

/-! ## Token codec (PyJWT, as used by src/main.py) -/

/-- A bearer token as the `jwt` package sees it. -/
inductive JWToken where
  | malformed : JWToken
  | signed (key : Nat) (sub : Option String) (exp : Int) : JWToken
deriving DecidableEq

/-- Model of `jwt.decode(token, key, algorithms=[HS256])` at time `now`: fails on a
malformed token, a signature made with a different key, or an expired token
(PyJWT raises `ExpiredSignatureError`, a subclass of `InvalidTokenError`,
when `exp ≤ now`; no leeway). On success it returns the payload's `sub`. -/
def jwtDecode (tok : JWToken) (key : Nat) (now : Int) : Option (Option String) :=
  match tok with
  | .malformed => none
  | .signed k sub exp =>
      if k = key then (if exp ≤ now then none else some sub) else none

def ACCESS_TOKEN_EXPIRE_MINUTES : Int := 30

/-- Model of `create_access_token(data={"sub": sub}, expires_delta)`: signs
`{sub, exp := now + delta}` with the secret; the default delta when none is
passed is 15 minutes. -/
def create_access_token (secretKey : Nat) (sub : String) (now : Int)
    (expires_delta : Option Int) : JWToken :=
  .signed secretKey (some sub)
    (now + (match expires_delta with | some d => d | none => 15 * 60))

/-! ## Authentication functions (src/main.py lines 62-114) -/

/-- Lookup `get_user`: `select(User).where(User.username == username)`, first row.
SQLite string `=` is case-sensitive (BINARY collation), hence `String` `=`. -/
def get_user (users : List User) (username : String) : Option User :=
  users.find? (fun u => u.username = username)

/-- Model of `authenticate_user`: returns `False` (here `none`) when the user is absent
or the password hash does not verify. -/
def authenticate_user (users : List User) (username password : String) :
    Option User :=
  match get_user users username with
  | none => none
  | some u => if verify_password password u.hashed_password then some u else none

/-- Model of `get_current_user`: decode the bearer token, reject with the generic 401
on any `InvalidTokenError`, on a missing `sub` claim, and on an unknown
subject; otherwise return the user. -/
def get_current_user (users : List User) (secretKey : Nat) (now : Int)
    (tok : JWToken) : Except HTTPError User :=
  match jwtDecode tok secretKey now with
  | none => .error credentialsError
  | some none => .error credentialsError
  | some (some username) =>
      match get_user users username with
      | none => .error credentialsError
      | some u => .ok u

/-- Model of `get_current_active_user`: 400 "Inactive user" when the resolved user is
disabled. -/
def get_current_active_user (users : List User) (secretKey : Nat) (now : Int)
    (tok : JWToken) : Except HTTPError User :=
  match get_current_user users secretKey now tok with
  | .error e => .error e
  | .ok u => if u.disabled then .error inactiveUserError else .ok u

/-! ## Authentication endpoints (src/main.py lines 118-149) -/

/-- Handler of `POST /users/login`: authenticate, 401 on failure, else issue a 30-minute
token for the username. -/
def login_for_access_token (users : List User) (secretKey : Nat) (now : Int)
    (username password : String) : Except HTTPError JWToken :=
  match authenticate_user users username password with
  | none => .error incorrectLoginError
  | some u =>
      .ok (create_access_token secretKey u.username now
            (some (ACCESS_TOKEN_EXPIRE_MINUTES * 60)))

/-- Store-assigned user ids: SQLite rowid assignment, max existing id + 1. -/
def nextUserId (users : List User) : Nat :=
  (users.foldl (fun m u => max m u.id) 0) + 1

/-- Handler of `POST /users/register` (`create_user`): 400 when the username is already
present (exact, case-sensitive match), leaving the table unchanged; otherwise
insert a user with the hashed password and `disabled = false`. -/
def create_user (users : List User) (username password : String) :
    Except HTTPError User × List User :=
  match get_user users username with
  | some _ => (.error duplicateUsernameError, users)
  | none =>
      let u : User := ⟨nextUserId users, username, false, get_password_hash password⟩
      (.ok u, users ++ [u])

/-! ## Expense request parsing (src/models.py `ExpenseCreate`) -/

/-- The JSON body of a `POST /expenses` or `PUT /expenses/{id}` request as a
client may send it. `ExpenseCreate` has no `owner_id`, `owner` or `id` field,
and pydantic's default behaviour for this model is to ignore unknown keys, so
the last three fields below are parsed-and-dropped client input.
`date` and `last_updated` are optional with server-clock defaults
(`default_factory=datetime.now(UTC)`). For `recurrence_start_date` the
difference between omitting the key and sending it matters (validators do
not run on an unsupplied default), so it is doubly optional: `none` means
the key is absent, `some none` a JSON `null`, `some (some d)` a datetime. -/
structure ExpenseBody where
  amount : ℚ
  description : String
  category_id : Option Nat
  date : Option Int
  last_updated : Option Int
  recurrence_rule : Option String
  recurrence_start_date : Option (Option Int)
  owner_id_field : Option Nat
  owner_field : Option Nat
  id_field : Option Nat
deriving DecidableEq

/-- A validated `ExpenseCreate` value (the pydantic model after parsing). -/
structure ExpenseCreate where
  amount : ℚ
  description : String
  category_id : Option Nat
  date : Int
  last_updated : Int
  recurrence_rule : Option String
  recurrence_start_date : Option Int
deriving DecidableEq

/-- The `recurrence_rule` field validator: the value must be `None` or one of
the four rule strings. -/
def validRecurrenceRule (r : Option String) : Bool :=
  match r with
  | none => true
  | some s => s = "daily" || s = "weekly" || s = "monthly" || s = "yearly"

/-- pydantic-v2 validation of `ExpenseCreate` at server time `now`.
When the client supplies `recurrence_start_date` (null or a datetime), its
field validator runs, `values.get('recurrence_rule')` hits the
`ValidationInfo` passed as second argument, and the resulting
`AttributeError` escapes pydantic as a 500 — this pre-empts the 422, because
field errors are only raised collectively after all fields are processed and
`recurrence_start_date` is the last field. When the key is omitted the
validator is skipped (`validate_default` is unset), so the field keeps its
default `None` and the rule-set-without-start-date check never fires.
The remaining constraints give a 422: `amount > 0` (`Field(gt=0)`),
`description` length in [3,255] (`min_length=3, max_length=255`),
`category_id > 0` when given (`gt=0`), and the `recurrence_rule` validator. -/
def parseExpenseCreate (b : ExpenseBody) (now : Int) :
    Except HTTPError ExpenseCreate :=
  if b.recurrence_start_date.isSome then .error attributeErrorValidator
  else if ¬ (0 < b.amount) then .error validationError
  else if ¬ (3 ≤ b.description.length ∧ b.description.length ≤ 255) then
    .error validationError
  else if (match b.category_id with | some c => decide (¬ 0 < c) | none => false) then
    .error validationError
  else if ¬ validRecurrenceRule b.recurrence_rule then .error validationError
  else
    .ok { amount := b.amount
          description := b.description
          category_id := b.category_id
          date := b.date.getD now
          last_updated := b.last_updated.getD now
          recurrence_rule := b.recurrence_rule
          recurrence_start_date := none }

/-! ## Expense endpoints (src/main.py lines 160-257) -/

/-- Store-assigned expense ids: SQLite rowid assignment, max existing id + 1. -/
def nextExpenseId (store : List Expense) : Nat :=
  (store.foldl (fun m e => max m (e.id.getD 0)) 0) + 1

/-- Model of `session.get(Expense, expense_id)`: primary-key lookup. -/
def dbGet (store : List Expense) (expense_id : Nat) : Option Expense :=
  store.find? (fun e => e.id = some expense_id)

/-- The insertion step of `POST /expenses` (`create_expense`):
`Expense(**expense.model_dump(), owner_id=current_user.id)`, then
add/commit/refresh. Returns the stored row and the new table. -/
def create_expense (store : List Expense) (ec : ExpenseCreate) (uid : Nat) :
    Expense × List Expense :=
  let e : Expense :=
    { id := some (nextExpenseId store)
      owner_id := some uid
      amount := ec.amount
      description := ec.description
      category_id := ec.category_id
      date := ec.date
      last_updated := ec.last_updated
      recurrence_rule := ec.recurrence_rule
      recurrence_start_date := ec.recurrence_start_date }
  (e, store ++ [e])

/-- Handler of `POST /expenses` including FastAPI body validation (which runs
before the handler): the body-validation failure (a 422, or the
`recurrence_start_date` validator's 500) on a rejected body, else insert with
the caller as owner. -/
def create_expense_endpoint (store : List Expense) (b : ExpenseBody)
    (uid : Nat) (now : Int) : Except HTTPError (Expense × List Expense) :=
  match parseExpenseCreate b now with
  | .error err => .error err
  | .ok ec => .ok (create_expense store ec uid)

/-- Handler of `GET /expenses/{expense_id}` (`get_expense`): 404 "Expense not found"
both when the row is absent and when its `owner_id` differs from the caller. -/
def get_expense (store : List Expense) (expense_id : Nat) (uid : Nat) :
    Except HTTPError Expense :=
  match dbGet store expense_id with
  | none => .error notFoundExpense
  | some e =>
      if e.owner_id ≠ some uid then .error notFoundExpense else .ok e

/-- Handler of `PUT /expenses/{expense_id}` (`update_expense`): body
validation (the same 422/500 outcomes as for create) happens at request
parsing, before the handler runs; then the same
absent-or-not-owner 404 as `get_expense`; then every key of
`expense_data.model_dump()` is written onto the row (this includes `date` and
`last_updated`), and finally `last_updated` is overwritten with the server
clock. `id` and `owner_id` are not fields of `ExpenseCreate`, so they are
never touched. -/
def update_expense (store : List Expense) (expense_id : Nat) (b : ExpenseBody)
    (uid : Nat) (now : Int) : Except HTTPError (Expense × List Expense) :=
  match parseExpenseCreate b now with
  | .error err => .error err
  | .ok ec =>
      match dbGet store expense_id with
      | none => .error notFoundExpense
      | some db =>
          if db.owner_id ≠ some uid then .error notFoundExpense
          else
            let e₁ : Expense :=
              { id := db.id
                owner_id := db.owner_id
                amount := ec.amount
                description := ec.description
                category_id := ec.category_id
                date := ec.date
                last_updated := ec.last_updated
                recurrence_rule := ec.recurrence_rule
                recurrence_start_date := ec.recurrence_start_date }
            let e₂ : Expense := { e₁ with last_updated := now }
            .ok (e₂, store.map (fun x => if x.id = some expense_id then e₂ else x))

/-- Handler of `DELETE /expenses/{expense_id}` (`delete_expense`): the same
absent-or-not-owner 404, else remove the row and return the message. -/
def delete_expense (store : List Expense) (expense_id : Nat) (uid : Nat) :
    Except HTTPError (String × List Expense) :=
  match dbGet store expense_id with
  | none => .error notFoundExpense
  | some e =>
      if e.owner_id ≠ some uid then .error notFoundExpense
      else
        (.ok ("Expense deleted successfully",
              store.filter (fun x => x.id ≠ some expense_id)))

/-! ## Expense list endpoint (src/main.py lines 175-206) -/

/-- The owner/date part of the list and report queries:
`select(Expense).where(owner_id == uid)` plus the optional
`date >= start_date` and `date <= end_date` clauses (inclusive bounds),
in the order the code adds them. -/
def filterOwnerDates (store : List Expense) (uid : Nat)
    (start_date end_date : Option Int) : List Expense :=
  let q₀ := store.filter (fun e => e.owner_id = some uid)
  let q₁ := match start_date with
            | some d => q₀.filter (fun e => d ≤ e.date)
            | none => q₀
  match end_date with
  | some d => q₁.filter (fun e => e.date ≤ d)
  | none => q₁

/-- Python truthiness of the `category` query parameter: the filter branch
`if category:` runs only for a present, non-empty string. -/
def categoryProvided (category : Option String) : Bool :=
  match category with
  | none => false
  | some c => c ≠ ""

/-- Handler of `GET /expenses` (`get_expenses`): owner scope, optional inclusive date
bounds, then `offset(skip).limit(limit)`. When a (non-empty) `category`
parameter is present the code evaluates `Expense.category` to build the
where-clause; that attribute does not exist on the model (only
`category_id` does), so the request dies with an `AttributeError` before any
row is returned. FastAPI enforces `skip ≥ 0` (hence `Nat`) and
`limit ≤ 1000` before the handler. -/
def get_expenses (store : List Expense) (uid : Nat)
    (start_date end_date : Option Int) (category : Option String)
    (skip limit : Nat) : Except HTTPError (List Expense) :=
  if categoryProvided category then .error attributeErrorCategory
  else .ok (((filterOwnerDates store uid start_date end_date).drop skip).take limit)

/-! ## Report endpoint (src/main.py lines 311-360) -/

/-- Sum of the amounts of a list of expenses, in list order, starting from 0
(`category_sum = 0; for expense in ...: category_sum += expense.amount`). -/
def sumAmounts (l : List Expense) : ℚ :=
  l.foldl (fun s e => s + e.amount) 0

/-- Handler of `GET /reports/expenses` (`get_expenses_report`): run the owner/date query,
collect `set(expense.category_id)` over the result, then for each category id
re-run the query with `.where(category_id == category_id)` appended
(SQLAlchemy turns `== None` into `IS NULL`, so the `None` group works) and sum
the amounts of the re-queried rows. The dict is modelled as an association
list; Python's arbitrary set-iteration order is irrelevant to lookups, and
the `str(category_id)` keys are modelled by the ids themselves (with `none`
standing for the key `"None"`), `str` being injective on them. -/
def get_expenses_report (store : List Expense) (uid : Nat)
    (start_date end_date : Option Int) : List (Option Nat × ℚ) :=
  let expenses := filterOwnerDates store uid start_date end_date
  let categories := (expenses.map (fun e => e.category_id)).dedup
  categories.map (fun c =>
    (c, sumAmounts ((filterOwnerDates store uid start_date end_date).filter
          (fun e => e.category_id = c))))

/-- Dict lookup on the association-list model of the report. -/
def lookupReport (r : List (Option Nat × ℚ)) (c : Option Nat) : Option ℚ :=
  match r with
  | [] => none
  | (k, v) :: rest => if k = c then some v else lookupReport rest c

/-- Modelled from the spec: one step of the recommended "single grouped
aggregation pass" — add `a` into the entry for key `c`, inserting the key at
the end on first sight. -/
def groupedAddTo (acc : List (Option Nat × ℚ)) (c : Option Nat) (a : ℚ) :
    List (Option Nat × ℚ) :=
  match acc with
  | [] => [(c, a)]
  | (k, v) :: rest =>
      if k = c then (k, v + a) :: rest else (k, v) :: groupedAddTo rest c a

/-- Modelled from the spec: "reimplement as a single grouped aggregation pass
over the already-filtered result set" — one fold over the filtered expenses,
accumulating each amount into its category's entry. -/
def groupedReport (l : List Expense) : List (Option Nat × ℚ) :=
  l.foldl (fun acc e => groupedAddTo acc e.category_id e.amount) []

/-- Per-key view of one grouped-pass step: only amounts of matching category
are accumulated, a first amount starting the entry. -/
def reportStep (c : Option Nat) (s? : Option ℚ) (e : Expense) : Option ℚ :=
  if e.category_id = c then
    (match s? with
     | none => some e.amount
     | some s => some (s + e.amount))
  else s?

/-! ## Helper lemmas -/

theorem lookupReport_map_keys (f : Option Nat → ℚ) (ks : List (Option Nat))
    (c : Option Nat) :
    lookupReport (ks.map (fun k => (k, f k))) c
      = if c ∈ ks then some (f c) else none := by
  induction ks with
  | nil => rfl
  | cons k t ih =>
      simp only [List.map_cons, lookupReport]
      by_cases hk : k = c
      · subst hk; simp
      · have hck : ¬ c = k := fun hc => hk hc.symm
        simp [hk, ih, hck]

theorem lookupReport_groupedAddTo (acc : List (Option Nat × ℚ))
    (k c : Option Nat) (a : ℚ) :
    lookupReport (groupedAddTo acc k a) c
      = if k = c then
          (match lookupReport acc c with
           | none => some a
           | some v => some (v + a))
        else lookupReport acc c := by
  induction acc with
  | nil => by_cases h : k = c <;> simp [groupedAddTo, lookupReport, h]
  | cons p t ih =>
      obtain ⟨k', v⟩ := p
      by_cases h1 : k' = k
      · subst h1
        by_cases h2 : k' = c <;> simp [groupedAddTo, lookupReport, h2]
      · by_cases h2 : k' = c
        · subst h2
          have hkc : ¬ k = k' := fun hc => h1 hc.symm
          simp [groupedAddTo, lookupReport, h1, hkc]
        · simp [groupedAddTo, lookupReport, h1, h2, ih]

theorem foldl_groupedAddTo_lookup (l : List Expense)
    (acc : List (Option Nat × ℚ)) (c : Option Nat) :
    lookupReport (l.foldl (fun a e => groupedAddTo a e.category_id e.amount) acc) c
      = l.foldl (reportStep c) (lookupReport acc c) := by
  induction l generalizing acc with
  | nil => rfl
  | cons e t ih =>
      simp only [List.foldl_cons]
      rw [ih]
      congr 1
      rw [lookupReport_groupedAddTo]
      unfold reportStep
      by_cases h : e.category_id = c <;> simp [h]

theorem foldl_reportStep_some (l : List Expense) (c : Option Nat) (v : ℚ) :
    l.foldl (reportStep c) (some v)
      = some ((l.filter (fun e => e.category_id = c)).foldl
          (fun s e => s + e.amount) v) := by
  induction l generalizing v with
  | nil => rfl
  | cons e t ih =>
      by_cases h : e.category_id = c <;>
        simp [reportStep, h, ih, List.filter_cons]

theorem foldl_reportStep_none (l : List Expense) (c : Option Nat) :
    l.foldl (reportStep c) none
      = if l.filter (fun e => e.category_id = c) = [] then none
        else some (sumAmounts (l.filter (fun e => e.category_id = c))) := by
  induction l with
  | nil => rfl
  | cons e t ih =>
      by_cases h : e.category_id = c
      · simp only [List.foldl_cons, reportStep, h, if_pos]
        rw [foldl_reportStep_some]
        simp [List.filter_cons, h, sumAmounts]
      · simp [List.foldl_cons, reportStep, h, ih, List.filter_cons]

theorem lookupReport_report (store : List Expense) (uid : Nat)
    (sd ed : Option Int) (c : Option Nat) :
    lookupReport (get_expenses_report store uid sd ed) c
      = if c ∈ ((filterOwnerDates store uid sd ed).map
            (fun e => e.category_id)).dedup
        then some (sumAmounts ((filterOwnerDates store uid sd ed).filter
            (fun e => e.category_id = c)))
        else none :=
  lookupReport_map_keys _ _ _

theorem mem_cat_iff_filter_ne_nil (l : List Expense) (c : Option Nat) :
    c ∈ l.map (fun e => e.category_id) ↔
      l.filter (fun e => e.category_id = c) ≠ [] := by
  rw [List.mem_map]
  constructor
  · rintro ⟨e, he, hc⟩ hnil
    have h2 := (List.filter_eq_nil_iff.mp hnil) e he
    simp [hc] at h2
  · intro hne
    cases hm : l.filter (fun e => e.category_id = c) with
    | nil => exact absurd hm hne
    | cons e t =>
        have he : e ∈ l.filter (fun e => e.category_id = c) := by
          rw [hm]; exact List.mem_cons_self e t
        exact ⟨e, List.mem_of_mem_filter he, by simpa using List.of_mem_filter he⟩

theorem get_user_append_of_none (users : List User) (u : User) (uname : String)
    (h : get_user users uname = none) (hu : u.username = uname) :
    get_user (users ++ [u]) uname = some u := by
  unfold get_user at h ⊢
  rw [List.find?_append, h, Option.none_or]
  simp [List.find?, hu]

/-! ## Claim theorems -/

/-- C1: when the caller is not the owner of the expense at `expense_id` — be
it because no such row exists or because the row's `owner_id` is a different
user — `GET`, `PUT` and `DELETE` on `/expenses/{expense_id}` all fail with
the single 404 response "Expense not found" (never a 200, never a 403), the
response value being identical in the absent-row and foreign-owner cases.
The `PUT` is quantified over bodies that pass body validation: an invalid
body is answered (422/500) at request parsing, before the ownership check. -/
theorem cross_owner_access_denied_as_404
    (store : List Expense) (expense_id uidB : Nat) (b : ExpenseBody)
    (now : Int) (ec : ExpenseCreate)
    (hb : parseExpenseCreate b now = .ok ec)
    (h : dbGet store expense_id = none ∨
         ∃ e uidA, dbGet store expense_id = some e ∧
           e.owner_id = some uidA ∧ uidA ≠ uidB) :
    get_expense store expense_id uidB = .error notFoundExpense ∧
    update_expense store expense_id b uidB now = .error notFoundExpense ∧
    delete_expense store expense_id uidB = .error notFoundExpense ∧
    notFoundExpense = ⟨404, "Expense not found"⟩ := by
  refine ⟨?_, ?_, ?_, rfl⟩ <;>
  · rcases h with hnone | ⟨e, uidA, he, hown, hne⟩
    · simp [get_expense, update_expense, delete_expense, hnone, hb]
    · have hneq : e.owner_id ≠ some uidB := by
        rw [hown]; intro hc; exact hne (Option.some.inj hc)
      simp [get_expense, update_expense, delete_expense, he, hb, hneq]

theorem cross_owner_access_denied_as_404_witness :
    get_expense [⟨some 1, some 1, 5, "Lunch", some 2, 10, 10, none, none⟩] 1 2
      = .error notFoundExpense ∧
    update_expense [⟨some 1, some 1, 5, "Lunch", some 2, 10, 10, none, none⟩] 1
      ⟨7, "Dinner", some 2, some 11, none, none, none, some 99, none, some 42⟩ 2 0
      = .error notFoundExpense ∧
    delete_expense [⟨some 1, some 1, 5, "Lunch", some 2, 10, 10, none, none⟩] 1 2
      = .error notFoundExpense ∧
    notFoundExpense = ⟨404, "Expense not found"⟩ :=
  cross_owner_access_denied_as_404 _ 1 2 _ 0 ⟨7, "Dinner", some 2, 11, 0, none, none⟩
    rfl
    (Or.inr ⟨⟨some 1, some 1, 5, "Lunch", some 2, 10, 10, none, none⟩, 1, rfl, rfl,
      by decide⟩)

/-- C2: whenever `POST /expenses` succeeds, the stored row's `owner_id` is the
authenticated caller's id, and the handler's output does not depend on any
`owner_id`/`owner`/`id` key the client put in the body: `ExpenseCreate` has no
such fields, so they are dropped at parsing. -/
theorem expense_owner_is_caller
    (store : List Expense) (b : ExpenseBody) (uid : Nat) (now : Int)
    (e : Expense) (store' : List Expense)
    (h : create_expense_endpoint store b uid now = .ok (e, store')) :
    e.owner_id = some uid ∧ store' = store ++ [e] ∧
    ∀ o ow i, create_expense_endpoint store
        { b with owner_id_field := o, owner_field := ow, id_field := i } uid now
      = create_expense_endpoint store b uid now := by
  refine ⟨?_, ?_, fun o ow i => rfl⟩ <;>
  · unfold create_expense_endpoint at h
    cases hp : parseExpenseCreate b now with
    | error err => rw [hp] at h; simp at h
    | ok ec =>
        rw [hp] at h
        simp only [Except.ok.injEq, create_expense, Prod.mk.injEq] at h
        obtain ⟨he, hs⟩ := h
        subst he
        simp [hs.symm]

theorem expense_owner_is_caller_witness :
    (⟨some 1, some 7, (5 : ℚ), "Lunch", some 2, 11, 0, none, none⟩ :
        Expense).owner_id = some 7 ∧
    ([⟨some 1, some 7, 5, "Lunch", some 2, 11, 0, none, none⟩] :
        List Expense) = [] ++ [⟨some 1, some 7, 5, "Lunch", some 2, 11, 0, none, none⟩] ∧
    ∀ o ow i, create_expense_endpoint []
        { (⟨5, "Lunch", some 2, some 11, none, none, none, some 99, some 3, some 42⟩ :
            ExpenseBody) with owner_id_field := o, owner_field := ow, id_field := i } 7 0
      = create_expense_endpoint []
          ⟨5, "Lunch", some 2, some 11, none, none, none, some 99, some 3, some 42⟩ 7 0 :=
  expense_owner_is_caller []
    ⟨5, "Lunch", some 2, some 11, none, none, none, some 99, some 3, some 42⟩ 7 0 _ _ rfl

/-- C6: a login attempt fails with the very same error value —
401 "Incorrect username or password" — whether the username matches no stored
user or the user exists and password verification fails, so the two cases are
indistinguishable to the caller. -/
theorem login_failures_indistinguishable
    (users : List User) (secretKey : Nat) (now : Int) (username password : String) :
    (get_user users username = none →
      login_for_access_token users secretKey now username password
        = .error incorrectLoginError) ∧
    (∀ u, get_user users username = some u →
      verify_password password u.hashed_password = false →
      login_for_access_token users secretKey now username password
        = .error incorrectLoginError) ∧
    incorrectLoginError = ⟨401, "Incorrect username or password"⟩ := by
  refine ⟨?_, ?_, rfl⟩
  · intro h
    simp [login_for_access_token, authenticate_user, h]
  · intro u hu hv
    simp [login_for_access_token, authenticate_user, hu, hv]

theorem login_failures_indistinguishable_witness :
    login_for_access_token [⟨1, "alice", false, "bcrypt$pw"⟩] 7 0 "bob" "pw"
      = .error incorrectLoginError ∧
    login_for_access_token [⟨1, "alice", false, "bcrypt$pw"⟩] 7 0 "alice" "wrong"
      = .error incorrectLoginError :=
  ⟨(login_failures_indistinguishable [⟨1, "alice", false, "bcrypt$pw"⟩] 7 0 "bob"
      "pw").1 rfl,
   (login_failures_indistinguishable [⟨1, "alice", false, "bcrypt$pw"⟩] 7 0 "alice"
      "wrong").2.1 ⟨1, "alice", false, "bcrypt$pw"⟩ rfl rfl⟩

/-- C7: once a registration for a username has succeeded, any second
registration with the same username (exact, case-sensitive match) fails with
400 "Username already registered", whatever the password, and leaves the user
table exactly as it was. -/
theorem duplicate_registration_rejected
    (users users' : List User) (uname pw₁ pw₂ : String) (u : User)
    (h : create_user users uname pw₁ = (.ok u, users')) :
    create_user users' uname pw₂ = (.error duplicateUsernameError, users') ∧
    duplicateUsernameError = ⟨400, "Username already registered"⟩ := by
  refine ⟨?_, rfl⟩
  unfold create_user at h
  cases hg : get_user users uname with
  | some w => rw [hg] at h; simp at h
  | none =>
      rw [hg] at h
      simp only [Prod.mk.injEq, Except.ok.injEq] at h
      obtain ⟨hu, hs⟩ := h
      subst hu
      subst hs
      have hfind := get_user_append_of_none users
        ({ id := nextUserId users, username := uname, disabled := false,
           hashed_password := get_password_hash pw₁ } : User) uname hg rfl
      simp [create_user, hfind]

theorem duplicate_registration_rejected_witness :
    create_user [⟨1, "alice", false, "bcrypt$pw"⟩] "alice" "other"
      = (.error duplicateUsernameError, [⟨1, "alice", false, "bcrypt$pw"⟩]) ∧
    duplicateUsernameError = ⟨400, "Username already registered"⟩ :=
  duplicate_registration_rejected [] [⟨1, "alice", false, "bcrypt$pw"⟩]
    "alice" "pw" "other" ⟨1, "alice", false, "bcrypt$pw"⟩ rfl

/-- C5: bearer-token resolution fails with the one generic
401 "Could not validate credentials" on a malformed token, a token signed with
the wrong key, an expired token (any token past its expiry instant, with no
grace window), and a token whose subject matches no stored user; and when the
resolved user is disabled it fails with 400 "Inactive user". -/
theorem resolve_identity_failure_modes
    (users : List User) (secretKey badkey : Nat) (sub : Option String)
    (expiry now : Int) (s : String) (u : User) :
    get_current_active_user users secretKey now .malformed
      = .error credentialsError ∧
    (badkey ≠ secretKey →
      get_current_active_user users secretKey now (.signed badkey sub expiry)
        = .error credentialsError) ∧
    (expiry < now →
      get_current_active_user users secretKey now (.signed secretKey sub expiry)
        = .error credentialsError) ∧
    (now < expiry → get_user users s = none →
      get_current_active_user users secretKey now (.signed secretKey (some s) expiry)
        = .error credentialsError) ∧
    (now < expiry → get_user users s = some u → u.disabled = true →
      get_current_active_user users secretKey now (.signed secretKey (some s) expiry)
        = .error inactiveUserError) ∧
    credentialsError = ⟨401, "Could not validate credentials"⟩ ∧
    inactiveUserError = ⟨400, "Inactive user"⟩ := by
  refine ⟨rfl, ?_, ?_, ?_, ?_, rfl, rfl⟩
  · intro hk
    simp [get_current_active_user, get_current_user, jwtDecode, hk]
  · intro hexp
    simp [get_current_active_user, get_current_user, jwtDecode, hexp.le]
  · intro hfresh hu
    simp [get_current_active_user, get_current_user, jwtDecode, not_le.mpr hfresh, hu]
  · intro hfresh hu hd
    simp [get_current_active_user, get_current_user, jwtDecode, not_le.mpr hfresh,
      hu, hd]

theorem resolve_identity_failure_modes_witness :
    get_current_active_user [⟨1, "alice", false, "bcrypt$pw"⟩] 7 100 .malformed
      = .error credentialsError ∧
    get_current_active_user [⟨1, "alice", false, "bcrypt$pw"⟩] 7 100
        (.signed 8 (some "alice") 200) = .error credentialsError ∧
    get_current_active_user [⟨1, "alice", false, "bcrypt$pw"⟩] 7 100
        (.signed 7 (some "alice") 99) = .error credentialsError ∧
    get_current_active_user [⟨1, "alice", false, "bcrypt$pw"⟩] 7 100
        (.signed 7 (some "bob") 200) = .error credentialsError ∧
    get_current_active_user [⟨1, "bob", true, "bcrypt$pw"⟩] 7 100
        (.signed 7 (some "bob") 200) = .error inactiveUserError :=
  ⟨(resolve_identity_failure_modes [⟨1, "alice", false, "bcrypt$pw"⟩] 7 8
      (some "alice") 200 100 "x" ⟨1, "x", false, "x"⟩).1,
   (resolve_identity_failure_modes [⟨1, "alice", false, "bcrypt$pw"⟩] 7 8
      (some "alice") 200 100 "x" ⟨1, "x", false, "x"⟩).2.1 (by decide),
   (resolve_identity_failure_modes [⟨1, "alice", false, "bcrypt$pw"⟩] 7 8
      (some "alice") 99 100 "x" ⟨1, "x", false, "x"⟩).2.2.1 (by decide),
   (resolve_identity_failure_modes [⟨1, "alice", false, "bcrypt$pw"⟩] 7 8
      (some "alice") 200 100 "bob" ⟨1, "x", false, "x"⟩).2.2.2.1 (by decide) rfl,
   (resolve_identity_failure_modes [⟨1, "bob", true, "bcrypt$pw"⟩] 7 8
      (some "alice") 200 100 "bob" ⟨1, "bob", true, "bcrypt$pw"⟩).2.2.2.2.1
      (by decide) rfl rfl⟩

/-- C10 counterexample: the claim says an expense is successfully created or
updated even when the request supplies a non-null `recurrence_start_date`,
the validator (implicitly returning `None`) merely discarding the value.
In fact such a request never succeeds: the validator runs, its
`values.get('recurrence_rule')` hits pydantic v2's `ValidationInfo`, and the
request dies with the `AttributeError` 500, storing nothing — shown here for
create, update and the parse itself at a concrete body carrying
`recurrence_start_date`. -/
theorem recurrence_start_date_supplied_means_500 :
    parseExpenseCreate
        ⟨5, "Lunch", some 2, some 11, none, some "daily", some (some 33), none,
          none, none⟩ 0 = .error attributeErrorValidator ∧
    create_expense_endpoint []
        ⟨5, "Lunch", some 2, some 11, none, some "daily", some (some 33), none,
          none, none⟩ 1 0 = .error attributeErrorValidator ∧
    update_expense [⟨some 1, some 1, 5, "Lunch", some 2, 10, 10, none, none⟩] 1
        ⟨5, "Lunch", some 2, some 11, none, some "daily", some (some 33), none,
          none, none⟩ 1 0 = .error attributeErrorValidator ∧
    attributeErrorValidator.status = 500 :=
  ⟨rfl, rfl, rfl, rfl⟩

/-- C10 (amended): every successfully created or updated expense stores
`recurrence_start_date = None`, and a client-sent value is indeed never the
persisted value — but not because the validator discards it: a body that
supplies `recurrence_start_date` at all (null or non-null) always fails with
the validator's `AttributeError` 500 and persists nothing, so the only bodies
that succeed omit the key, the validator is skipped, and the stored `None` is
the field's default. -/
theorem recurrence_start_date_never_persisted
    (b : ExpenseBody) (now : Int) (ec : ExpenseCreate)
    (h : parseExpenseCreate b now = .ok ec) :
    b.recurrence_start_date = none ∧
    ec.recurrence_start_date = none ∧
    (∀ store uid, ((create_expense store ec uid).1).recurrence_start_date = none) ∧
    (∀ store i uid e' store',
        update_expense store i b uid now = .ok (e', store') →
        e'.recurrence_start_date = none) ∧
    (∀ b' : ExpenseBody, b'.recurrence_start_date.isSome →
        parseExpenseCreate b' now = .error attributeErrorValidator) := by
  have hsupplied : b.recurrence_start_date = none := by
    cases ho : b.recurrence_start_date with
    | none => rfl
    | some v =>
        unfold parseExpenseCreate at h
        rw [ho] at h
        simp at h
  have hrsd : ec.recurrence_start_date = none := by
    unfold parseExpenseCreate at h
    split at h
    · simp at h
    split at h
    · simp at h
    split at h
    · simp at h
    split at h
    · simp at h
    split at h
    · simp at h
    simp only [Except.ok.injEq] at h
    rw [← h]
  refine ⟨hsupplied, hrsd, fun store uid => hrsd, ?_, ?_⟩
  · intro store i uid e' store' hup
    unfold update_expense at hup
    rw [h] at hup
    cases hdb : dbGet store i with
    | none => rw [hdb] at hup; simp at hup
    | some db =>
        rw [hdb] at hup
        by_cases hown : db.owner_id ≠ some uid
        · simp [hown] at hup
        · simp only [hown, if_false, Except.ok.injEq, Prod.mk.injEq] at hup
          rw [← hup.1]
          exact hrsd
  · intro b' hsome
    unfold parseExpenseCreate
    simp [hsome]

theorem recurrence_start_date_never_persisted_witness :
    (⟨5, "Lunch", some 2, some 11, none, some "daily", none, none, none, none⟩ :
        ExpenseBody).recurrence_start_date = none ∧
    (⟨5, "Lunch", some 2, 11, 0, some "daily", none⟩ :
        ExpenseCreate).recurrence_start_date = none ∧
    (∀ store uid,
      ((create_expense store ⟨5, "Lunch", some 2, 11, 0, some "daily", none⟩
          uid).1).recurrence_start_date = none) ∧
    (∀ store i uid e' store',
        update_expense store i
          ⟨5, "Lunch", some 2, some 11, none, some "daily", none, none, none,
            none⟩ uid 0 = .ok (e', store') →
        e'.recurrence_start_date = none) ∧
    (∀ b' : ExpenseBody, b'.recurrence_start_date.isSome →
        parseExpenseCreate b' 0 = .error attributeErrorValidator) :=
  recurrence_start_date_never_persisted
    ⟨5, "Lunch", some 2, some 11, none, some "daily", none, none, none, none⟩ 0
    ⟨5, "Lunch", some 2, 11, 0, some "daily", none⟩ rfl

/-- C9: a successful owner update refreshes `last_updated` to the server
clock, leaves `id` and `owner_id` exactly as they were (the handler's output
cannot depend on any `owner_id`/`owner`/`id` key in the payload), fully
replaces `amount`, `description` and `category_id` with the validated payload
values, and runs exactly the same validation as create: a body create would
reject (with its 422, or the start-date validator's 500) makes update reject
with that same error before anything is touched. -/
theorem update_replaces_and_refreshes
    (store : List Expense) (expense_id uid : Nat) (b : ExpenseBody) (now : Int)
    (db : Expense) (ec : ExpenseCreate) (e' : Expense) (store' : List Expense)
    (hec : parseExpenseCreate b now = .ok ec)
    (hdb : dbGet store expense_id = some db)
    (h : update_expense store expense_id b uid now = .ok (e', store')) :
    e'.last_updated = now ∧
    e'.id = db.id ∧ e'.owner_id = db.owner_id ∧
    e'.amount = ec.amount ∧ e'.description = ec.description ∧
    e'.category_id = ec.category_id ∧
    (∀ o ow i, update_expense store expense_id
        { b with owner_id_field := o, owner_field := ow, id_field := i } uid now
      = update_expense store expense_id b uid now) ∧
    (∀ b' err, parseExpenseCreate b' now = .error err →
        update_expense store expense_id b' uid now = .error err ∧
        create_expense_endpoint store b' uid now = .error err) := by
  unfold update_expense at h
  rw [hec, hdb] at h
  by_cases hown : db.owner_id ≠ some uid
  · simp [hown] at h
  · simp only [hown, if_false, Except.ok.injEq, Prod.mk.injEq] at h
    obtain ⟨he, _⟩ := h
    subst he
    refine ⟨rfl, rfl, rfl, rfl, rfl, rfl, fun o ow i => rfl, ?_⟩
    intro b' err herr
    constructor
    · unfold update_expense
      rw [herr]
    · unfold create_expense_endpoint
      rw [herr]

theorem update_replaces_and_refreshes_witness :
    (⟨some 1, some 1, (7 : ℚ), "Dinner", some 3, 11, 99, none, none⟩ :
        Expense).last_updated = 99 ∧
    (⟨some 1, some 1, (7 : ℚ), "Dinner", some 3, 11, 99, none, none⟩ :
        Expense).id = (⟨some 1, some 1, (5 : ℚ), "Lunch", some 2, 10, 10, none,
          none⟩ : Expense).id ∧
    (⟨some 1, some 1, (7 : ℚ), "Dinner", some 3, 11, 99, none, none⟩ :
        Expense).owner_id = (⟨some 1, some 1, (5 : ℚ), "Lunch", some 2, 10, 10,
          none, none⟩ : Expense).owner_id ∧
    (⟨some 1, some 1, (7 : ℚ), "Dinner", some 3, 11, 99, none, none⟩ :
        Expense).amount = (⟨7, "Dinner", some 3, 11, 99, none, none⟩ :
          ExpenseCreate).amount ∧
    (⟨some 1, some 1, (7 : ℚ), "Dinner", some 3, 11, 99, none, none⟩ :
        Expense).description = (⟨7, "Dinner", some 3, 11, 99, none, none⟩ :
          ExpenseCreate).description ∧
    (⟨some 1, some 1, (7 : ℚ), "Dinner", some 3, 11, 99, none, none⟩ :
        Expense).category_id = (⟨7, "Dinner", some 3, 11, 99, none, none⟩ :
          ExpenseCreate).category_id ∧
    (∀ o ow i, update_expense
        [⟨some 1, some 1, 5, "Lunch", some 2, 10, 10, none, none⟩] 1
        { (⟨7, "Dinner", some 3, some 11, some 99, none, none, none, none, none⟩ :
            ExpenseBody) with owner_id_field := o, owner_field := ow, id_field := i }
        1 99
      = update_expense [⟨some 1, some 1, 5, "Lunch", some 2, 10, 10, none, none⟩] 1
          ⟨7, "Dinner", some 3, some 11, some 99, none, none, none, none, none⟩ 1 99) ∧
    (∀ b' err, parseExpenseCreate b' 99 = .error err →
        update_expense [⟨some 1, some 1, 5, "Lunch", some 2, 10, 10, none, none⟩] 1
          b' 1 99 = .error err ∧
        create_expense_endpoint
          [⟨some 1, some 1, 5, "Lunch", some 2, 10, 10, none, none⟩] b' 1 99
          = .error err) :=
  update_replaces_and_refreshes
    [⟨some 1, some 1, 5, "Lunch", some 2, 10, 10, none, none⟩] 1 1
    ⟨7, "Dinner", some 3, some 11, some 99, none, none, none, none, none⟩ 99
    ⟨some 1, some 1, 5, "Lunch", some 2, 10, 10, none, none⟩
    ⟨7, "Dinner", some 3, 11, 99, none, none⟩
    ⟨some 1, some 1, 7, "Dinner", some 3, 11, 99, none, none⟩
    [⟨some 1, some 1, 7, "Dinner", some 3, 11, 99, none, none⟩]
    rfl rfl rfl

/-- C3: the claim says a category filter selects exactly the caller's
expenses whose category equals the filter value; the code instead evaluates
`Expense.category`, an attribute the model does not have (it has
`category_id`), so any list request carrying a non-empty `category` parameter
dies with an `AttributeError` (HTTP 500) and returns no rows at all — here at
the concrete failing input `GET /expenses?category=Food` by user 1 against a
store holding one matching expense of that user. -/
theorem category_filter_crashes_with_attribute_error :
    get_expenses [⟨some 1, some 1, 5, "Lunch", some 2, 10, 10, none, none⟩] 1
        none none (some "Food") 0 100 = .error attributeErrorCategory ∧
    attributeErrorCategory.status = 500 :=
  ⟨rfl, rfl⟩

/-- C4 counterexample: the claim quantifies over every authenticated list
request and promises that `limit=0` yields an empty page "rather than an
error"; with a category filter present the request errors instead
(`GET /expenses?category=Food&limit=0`). -/
theorem limit_zero_with_category_errors :
    get_expenses [] 1 none none (some "Food") 0 0 = .error attributeErrorCategory ∧
    get_expenses [] 1 none none (some "Food") 0 0 ≠ .ok [] := by
  refine ⟨rfl, ?_⟩
  intro hc
  simp [get_expenses, categoryProvided] at hc

/-- C4 (amended to list requests without a category filter): pagination is
applied after the owner and date filters, as drop-`skip`-then-take-`limit` in
the store's insertion order; `limit = 0` yields the empty page, and a `skip`
at or beyond the filtered result count yields the empty page — neither is an
error. `skip` is a non-negative offset and `limit` is capped at 1000 by
request validation. -/
theorem pagination_after_filters
    (store : List Expense) (uid : Nat) (sd ed : Option Int)
    (skip limit : Nat) (hlim : limit ≤ 1000) :
    get_expenses store uid sd ed none skip limit
      = .ok (((filterOwnerDates store uid sd ed).drop skip).take limit) ∧
    (limit = 0 → get_expenses store uid sd ed none skip limit = .ok []) ∧
    ((filterOwnerDates store uid sd ed).length ≤ skip →
      get_expenses store uid sd ed none skip limit = .ok []) := by
  refine ⟨rfl, ?_, ?_⟩
  · intro h0
    subst h0
    simp [get_expenses, categoryProvided]
  · intro hskip
    simp [get_expenses, categoryProvided, List.drop_eq_nil_of_le hskip]

theorem pagination_after_filters_witness :
    get_expenses [⟨some 1, some 1, 5, "Lunch", some 2, 10, 10, none, none⟩,
        ⟨some 2, some 1, 6, "Taxi", some 3, 20, 20, none, none⟩] 1
        (some 0) (some 15) none 1 100
      = .ok (((filterOwnerDates [⟨some 1, some 1, 5, "Lunch", some 2, 10, 10, none,
          none⟩, ⟨some 2, some 1, 6, "Taxi", some 3, 20, 20, none, none⟩] 1
          (some 0) (some 15)).drop 1).take 100) ∧
    get_expenses [⟨some 1, some 1, 5, "Lunch", some 2, 10, 10, none, none⟩,
        ⟨some 2, some 1, 6, "Taxi", some 3, 20, 20, none, none⟩] 1
        (some 0) (some 15) none 1 100 = .ok [] :=
  ⟨(pagination_after_filters _ 1 (some 0) (some 15) 1 100 (by decide)).1,
   (pagination_after_filters _ 1 (some 0) (some 15) 1 100 (by decide)).2.2
     (by decide)⟩

/-- C8: the report maps each category id (as its dict key) of the caller's
expenses within the optional date range to the sum of their amounts — for any
category id present in the filtered result set, the entry is exactly that sum
over the already-filtered rows — and the per-category repeated re-query the
code performs produces, key for key, the same map as a single grouped
aggregation pass over the already-filtered result set. -/
theorem report_requery_eq_grouped_pass
    (store : List Expense) (uid : Nat) (sd ed : Option Int) (c : Option Nat) :
    (c ∈ (filterOwnerDates store uid sd ed).map (fun e => e.category_id) →
      lookupReport (get_expenses_report store uid sd ed) c
        = some (sumAmounts ((filterOwnerDates store uid sd ed).filter
            (fun e => e.category_id = c)))) ∧
    lookupReport (get_expenses_report store uid sd ed) c
      = lookupReport (groupedReport (filterOwnerDates store uid sd ed)) c := by
  constructor
  · intro hmem
    rw [lookupReport_report]
    simp [List.mem_dedup, hmem]
  · rw [lookupReport_report]
    unfold groupedReport
    rw [foldl_groupedAddTo_lookup]
    simp only [lookupReport]
    rw [foldl_reportStep_none]
    by_cases hf : (filterOwnerDates store uid sd ed).filter
        (fun e => e.category_id = c) = []
    · have hm : ¬ c ∈ (filterOwnerDates store uid sd ed).map
          (fun e => e.category_id) :=
        fun hmem => (mem_cat_iff_filter_ne_nil _ _).mp hmem hf
      simp [List.mem_dedup, hm, hf]
    · have hm : c ∈ (filterOwnerDates store uid sd ed).map
          (fun e => e.category_id) :=
        (mem_cat_iff_filter_ne_nil _ _).mpr hf
      simp [List.mem_dedup, hm, hf]

theorem report_requery_eq_grouped_pass_witness :
    (lookupReport (get_expenses_report
        [⟨some 1, some 1, 5, "Lunch", some 2, 10, 10, none, none⟩,
         ⟨some 2, some 1, 6, "Taxi", some 2, 20, 20, none, none⟩,
         ⟨some 3, some 2, 8, "Hotel", some 2, 20, 20, none, none⟩] 1 none none)
        (some 2)
      = some (sumAmounts ((filterOwnerDates
          [⟨some 1, some 1, 5, "Lunch", some 2, 10, 10, none, none⟩,
           ⟨some 2, some 1, 6, "Taxi", some 2, 20, 20, none, none⟩,
           ⟨some 3, some 2, 8, "Hotel", some 2, 20, 20, none, none⟩] 1 none
          none).filter (fun e => e.category_id = some 2)))) ∧
    lookupReport (get_expenses_report
        [⟨some 1, some 1, 5, "Lunch", some 2, 10, 10, none, none⟩,
         ⟨some 2, some 1, 6, "Taxi", some 2, 20, 20, none, none⟩,
         ⟨some 3, some 2, 8, "Hotel", some 2, 20, 20, none, none⟩] 1 none none)
        (some 2)
      = lookupReport (groupedReport (filterOwnerDates
          [⟨some 1, some 1, 5, "Lunch", some 2, 10, 10, none, none⟩,
           ⟨some 2, some 1, 6, "Taxi", some 2, 20, 20, none, none⟩,
           ⟨some 3, some 2, 8, "Hotel", some 2, 20, 20, none, none⟩] 1 none none))
        (some 2) :=
  ⟨(report_requery_eq_grouped_pass
      [⟨some 1, some 1, 5, "Lunch", some 2, 10, 10, none, none⟩,
       ⟨some 2, some 1, 6, "Taxi", some 2, 20, 20, none, none⟩,
       ⟨some 3, some 2, 8, "Hotel", some 2, 20, 20, none, none⟩] 1 none none
      (some 2)).1 (by decide),
   (report_requery_eq_grouped_pass
      [⟨some 1, some 1, 5, "Lunch", some 2, 10, 10, none, none⟩,
       ⟨some 2, some 1, 6, "Taxi", some 2, 20, 20, none, none⟩,
       ⟨some 3, some 2, 8, "Hotel", some 2, 20, 20, none, none⟩] 1 none none
      (some 2)).2⟩

end ExpenseMS
